import Mathlib

/-!
Verification of the aexpect client layer (src/aexpect/client.py) against its
specification.  The Python code is shallowly embedded: pure string processing
is translated to Lean functions over `String`/`List Char`; the regex engine
`re.search` is abstracted as a Boolean match function; I/O results (file
reads, select readiness, expect-layer outcomes) are explicit inputs.
-/

namespace Aexpect

/-- Whitespace characters stripped by Python's `str.strip` / `str.rstrip`
(the ASCII subset: space, tab, newline, carriage return, vertical tab,
form feed; wider Unicode whitespace is not modelled). -/
def pyIsSpaceChar (c : Char) : Bool :=
  c == ' ' || c == '\t' || c == '\n' || c == '\r' || c == '\x0b' || c == '\x0c'

/-- Python `str.rstrip()` on a character list. -/
def rstripChars (cs : List Char) : List Char :=
  (cs.reverse.dropWhile pyIsSpaceChar).reverse

/-- Python `str.strip()` on a character list. -/
def stripChars (cs : List Char) : List Char :=
  rstripChars (cs.dropWhile pyIsSpaceChar)

/-- Python `str.rstrip()` on a `String`. -/
def pyRstripStr (s : String) : String :=
  String.mk (rstripChars s.data)

/-- Python `str.isdigit()` restricted to ASCII decimal digits (the Unicode
digit classes accepted by CPython are not modelled; shell status probes emit
ASCII). -/
def pyIsdigitChars (cs : List Char) : Bool :=
  !cs.isEmpty && cs.all Char.isDigit

/-- Numeric value of a decimal digit string (used for Python `int` on a
digits-only string). -/
def digitsVal (cs : List Char) : Nat :=
  cs.foldl (fun n c => 10 * n + (c.toNat - '0'.toNat)) 0

/-- Python `int(s)` for strings: strip whitespace, optional sign, at least
one decimal digit (underscore grouping is not modelled).  Returns `none`
where CPython raises `ValueError`. -/
def pyInt? (s : String) : Option Int :=
  match stripChars s.data with
  | '-' :: ds =>
      if !ds.isEmpty && ds.all Char.isDigit then some (-(digitsVal ds : Int)) else none
  | '+' :: ds =>
      if !ds.isEmpty && ds.all Char.isDigit then some ((digitsVal ds : Int)) else none
  | ds =>
      if !ds.isEmpty && ds.all Char.isDigit then some ((digitsVal ds : Int)) else none

/-- Python `str.splitlines(keepends)` on a character list, for the line
boundaries that occur in terminal output: `"\n"`, `"\r\n"` and `"\r"`
(the rarer Unicode boundaries `"\v"`, `"\f"`, … are not modelled). -/
def splitlinesChars (keep : Bool) : List Char → List (List Char)
  | [] => []
  | '\r' :: '\n' :: rest =>
      (if keep then ['\r', '\n'] else []) :: splitlinesChars keep rest
  | '\r' :: rest =>
      (if keep then ['\r'] else []) :: splitlinesChars keep rest
  | '\n' :: rest =>
      (if keep then ['\n'] else []) :: splitlinesChars keep rest
  | c :: rest =>
      match splitlinesChars keep rest with
      | [] => [[c]]
      | l :: ls => (c :: l) :: ls

/-- Python `s.split("\n")` on a character list (used by `Tail._tail`).
Unlike `splitlines` this splits on `'\n'` only and produces trailing empty
pieces. -/
def splitNlChars : List Char → List (List Char)
  | [] => [[]]
  | '\n' :: rest => [] :: splitNlChars rest
  | c :: rest =>
      match splitNlChars rest with
      | [] => [[c]]
      | l :: ls => (c :: l) :: ls

/-- Python `"".join(pieces)` on character lists. -/
def joinChars : List (List Char) → List Char
  | [] => []
  | l :: ls => l ++ joinChars ls

/-- Specification device (not from the source): the input with its first
line and that line's terminator removed.  Used to state what dropping the
first `splitlines(True)` piece does to a string. -/
def dropFirstLineChars : List Char → List Char
  | [] => []
  | '\r' :: '\n' :: rest => rest
  | '\r' :: rest => rest
  | '\n' :: rest => rest
  | _ :: rest => dropFirstLineChars rest

/-- Specification device: Python sequence indexing `xs[i]` on a list of
length `n`, where a negative `i` counts from the end; `none` where CPython
raises `IndexError`.  Returns the non-negative position designated. -/
def pyIndex (n : Nat) (i : Int) : Option Nat :=
  if 0 ≤ i then (if i < (n : Int) then some i.toNat else none)
  else (if -i ≤ (n : Int) then some (n - (-i).toNat) else none)

/-- Is `pat` a prefix of `cs`? (helper for the literal-substring instance of
the regex engine). -/
def listPrefixOf : List Char → List Char → Bool
  | [], _ => true
  | _ :: _, [] => false
  | a :: as, b :: bs => a == b && listPrefixOf as bs

/-- Does `pat` occur as a contiguous sublist of `cs`? -/
def listContains (pat : List Char) : List Char → Bool
  | [] => listPrefixOf pat []
  | c :: cs => listPrefixOf pat (c :: cs) || listContains pat cs

/-- A concrete instance of the abstract regex engine: `re.search(pat, cont)`
for a pattern with no regex metacharacters is plain substring search.  Used
to instantiate matcher theorems on concrete inputs. -/
def substrSearch (pat cont : String) : Bool :=
  listContains pat.data cont.data

/-- Python truthiness test `not patterns[i]` for a pattern entry that may be
`None` (modelled as `none`) or a string. -/
def optFalsy : Option String → Bool
  | none => true
  | some s => s.isEmpty

/-- Loop of `Expect.match_patterns` (client.py:707-711): `i` is the index of
the head of the remaining pattern list; a falsy entry is skipped, otherwise
`re.search(patterns[i], cont)` decides.  The regex engine is the abstract
parameter `search`. -/
def match_patterns_go (search : String → String → Bool) (cont : String) :
    Nat → List (Option String) → Option Nat
  | _, [] => none
  | i, p :: ps =>
      if optFalsy p then match_patterns_go search cont (i + 1) ps
      else if search (p.getD "") cont then some i
      else match_patterns_go search cont (i + 1) ps

/-- `Expect.match_patterns(cont, patterns)` (client.py:695-711): index of the
first non-falsy pattern that matches `cont`, scanning indices `0..len-1`. -/
def match_patterns (search : String → String → Bool) (cont : String)
    (patterns : List (Option String)) : Option Nat :=
  match_patterns_go search cont 0 patterns

/-- Loop of `Expect.match_patterns_multiline` (client.py:726-731): the source
iterates `i` over `range(-len(patterns), 0)` and reads `patterns[i]`, which
is the list walked in position order `0..len-1` while the reported index `i`
stays negative.  Here `i` is that negative running index and the list
argument is the remaining suffix of `patterns`. -/
def match_patterns_multiline_go (search : String → String → Bool)
    (cont : List String) : Int → List (Option String) → Option Int
  | _, [] => none
  | i, p :: ps =>
      if optFalsy p then match_patterns_multiline_go search cont (i + 1) ps
      else if cont.any (fun line => search (p.getD "") line) then some i
      else match_patterns_multiline_go search cont (i + 1) ps

/-- `Expect.match_patterns_multiline(cont, patterns)` (client.py:713-731):
`cont` is a list of lines; the running index starts at `-len(patterns)`. -/
def match_patterns_multiline (search : String → String → Bool)
    (cont : List String) (patterns : List (Option String)) : Option Int :=
  match_patterns_multiline_go search cont (-(patterns.length : Int)) patterns

/-- Combined falsiness-and-hit test for one pattern entry against a list of
lines: exactly the condition under which the multiline loop body returns the
current index (skip falsy, then `re.search` against each line). -/
def patternHits (search : String → String → Bool) (lines : List String) :
    Option String → Bool
  | none => false
  | some p => !p.isEmpty && lines.any (fun line => search p line)

/-- Outcome of one `read_until_output_matches` call. -/
inductive ReadOutcome where
  | matched (idx : Int) (o : String)
  | timeoutErr (patterns : List (Option String)) (o : String)
  deriving DecidableEq

/-- Loop of `Expect.read_until_output_matches` (client.py:763-785)
specialised to `timeout=0`, under a discrete timing model: with a zero
deadline, `select([fd], [], [], max(0, end_time - time.time()))` degenerates
to a readiness poll, so each iteration either finds a pending chunk (reads
it, accumulates, matches) or finds the pipe empty and raises
`ExpectTimeoutError(patterns, o)`.  `pending` is the sequence of non-empty
chunks already sitting in the expect FIFO when the call is made (nothing
more can arrive in zero time); `fmatch o` is
`match_func(filter_func(o), patterns)` with the match index widened to
`Int` (the multiline matcher returns negative indices). -/
def read_until_zero_timeout_go (fmatch : String → Option Int)
    (patterns : List (Option String)) (o : String) :
    List String → ReadOutcome
  | [] => ReadOutcome.timeoutErr patterns o
  | d :: rest =>
      match fmatch (o ++ d) with
      | some i => ReadOutcome.matched i (o ++ d)
      | none => read_until_zero_timeout_go fmatch patterns (o ++ d) rest

/-- `Expect.read_until_output_matches(patterns, …, timeout=0)` under the
timing model of `read_until_zero_timeout_go`, starting from an empty
accumulator.  Runs in which the child terminates (EOF on the FIFO) are not
modelled; they take the `ExpectProcessTerminatedError` exit instead. -/
def read_until_zero_timeout (fmatch : String → Option Int)
    (patterns : List (Option String)) (pending : List String) : ReadOutcome :=
  read_until_zero_timeout_go fmatch patterns "" pending

/-- One observable event seen by the `Tail._tail` worker loop before EOF:
either `select` reports data and `os.read` returns the (non-empty) chunk, or
the 0.05 s slice elapses quietly. -/
inductive TailEvent where
  | data (s : String)
  | quiet
  deriving DecidableEq

/-- One callback invocation made by the `Tail._tail` worker: a line handed
to `output_func` (after prefixing and rstrip), or the exit status handed to
`termination_func`. -/
inductive TailCall where
  | line (s : String)
  | terminate (st : Int)
  deriving DecidableEq

/-- Discriminator for `termination_func` invocations. -/
def tailCallIsTerminate : TailCall → Bool
  | TailCall.line _ => false
  | TailCall.terminate _ => true

/-- `print_line` inside `Tail._tail` (client.py:535-543): prepend the output
prefix to the rstripped text and hand it to `output_func`.  The model
assumes `output_func` is set and well-typed (a missing or mis-typed callback
only makes the source swallow a `TypeError`). -/
def tailPrintLine (pre text : String) : TailCall :=
  TailCall.line (pre ++ pyRstripStr text)

/-- The literal text `"(Process terminated with status %s)" % status`. -/
def procTermMsg (st : Int) : String :=
  "(Process terminated with status " ++ toString st ++ ")"

/-- One iteration of the `Tail._tail` while-loop (client.py:561-580) on a
pre-EOF event, mapping the current partial-line buffer to the new buffer and
the `output_func` calls made.  On data: append to the buffer, emit every
complete line (`bfr.split("\n")[:-1]`), keep the text after the last
newline.  On a quiet slice: flush a non-empty buffer. -/
def tailStep (pre bfr : String) : TailEvent → String × List TailCall
  | TailEvent.data s =>
      let parts := splitNlChars (bfr.data ++ s.data)
      (String.mk (parts.getLastD []),
       parts.dropLast.map (fun l => tailPrintLine pre (String.mk l)))
  | TailEvent.quiet =>
      if bfr = "" then (bfr, []) else ("", [tailPrintLine pre bfr])

/-- The `Tail._tail` while-loop over a whole pre-EOF event sequence,
threading the buffer and concatenating the calls. -/
def tailLoop (pre bfr : String) : List TailEvent → String × List TailCall
  | [] => (bfr, [])
  | e :: es =>
      let step := tailStep pre bfr e
      let rest := tailLoop pre step.1 es
      (rest.1, step.2 ++ rest.2)

/-- A complete run of `Tail._tail` (client.py:534-595) that reaches EOF on
the tail FIFO without a global kill request: run the loop over `events`,
break on EOF, flush any remaining buffer, then read the exit status
(`get_status`, an `Option Int` input here).  If the status is unavailable
the worker returns at once; otherwise it prints the termination message and
calls `termination_func` with the status. -/
def tail_run (pre : String) (events : List TailEvent) (status : Option Int) :
    List TailCall :=
  let looped := tailLoop pre "" events
  let flush := if looped.1 = "" then [] else [tailPrintLine pre looped.1]
  match status with
  | none => looped.2 ++ flush
  | some st =>
      looped.2 ++ flush ++ [tailPrintLine pre (procTermMsg st), TailCall.terminate st]

/-- Expect-layer exceptions (aexpect/exceptions.py): `ExpectTimeoutError`,
`ExpectProcessTerminatedError` (whose status comes from `get_status` and may
be `None`), and the base `ExpectError` for anything else.  Each carries the
patterns sought and the output accumulated so far. -/
inductive ExpectErr where
  | timeout (patterns : List (Option String)) (output : String)
  | procTerminated (patterns : List (Option String)) (status : Option Int) (output : String)
  | other (patterns : List (Option String)) (output : String)
  deriving DecidableEq

/-- The `output` attribute of an expect-layer exception. -/
def expectErrOutput : ExpectErr → String
  | ExpectErr.timeout _ o => o
  | ExpectErr.procTerminated _ _ o => o
  | ExpectErr.other _ o => o

/-- Is the expect error an `ExpectTimeoutError`? -/
def expectErrIsTimeout : ExpectErr → Bool
  | ExpectErr.timeout _ _ => true
  | _ => false

/-- Is the expect error an `ExpectProcessTerminatedError`? -/
def expectErrIsProcTerm : ExpectErr → Bool
  | ExpectErr.procTerminated _ _ _ => true
  | _ => false

/-- The `status` attribute of an `ExpectProcessTerminatedError`, when the
error is one. -/
def expectErrStatus : ExpectErr → Option (Option Int)
  | ExpectErr.procTerminated _ st _ => some st
  | _ => none

/-- Shell-layer exceptions (aexpect/exceptions.py): `ShellTimeoutError`,
`ShellProcessTerminatedError`, `ShellCmdError`, `ShellStatusError`, and the
base `ShellError` (`generic`).  Each carries the offending command and
output. -/
inductive ShellErr where
  | timeout (cmd output : String)
  | procTerminated (cmd : String) (status : Option Int) (output : String)
  | cmdError (cmd : String) (status : Int) (output : String)
  | statusError (cmd output : String)
  | generic (cmd output : String)
  deriving DecidableEq

/-- The `cmd` attribute of a shell-layer exception. -/
def shellErrCmd : ShellErr → String
  | ShellErr.timeout c _ => c
  | ShellErr.procTerminated c _ _ => c
  | ShellErr.cmdError c _ _ => c
  | ShellErr.statusError c _ => c
  | ShellErr.generic c _ => c

/-- The `output` attribute of a shell-layer exception. -/
def shellErrOutput : ShellErr → String
  | ShellErr.timeout _ o => o
  | ShellErr.procTerminated _ _ o => o
  | ShellErr.cmdError _ _ o => o
  | ShellErr.statusError _ o => o
  | ShellErr.generic _ o => o

/-- Is the shell error a `ShellTimeoutError`? -/
def shellErrIsTimeout : ShellErr → Bool
  | ShellErr.timeout _ _ => true
  | _ => false

/-- Is the shell error a `ShellProcessTerminatedError`? -/
def shellErrIsProcTerm : ShellErr → Bool
  | ShellErr.procTerminated _ _ _ => true
  | _ => false

/-- Is the shell error a bare `ShellError` (none of the subclasses)? -/
def shellErrIsGeneric : ShellErr → Bool
  | ShellErr.generic _ _ => true
  | _ => false

/-- The `status` attribute of a `ShellProcessTerminatedError`, when the
error is one. -/
def shellErrStatus : ShellErr → Option (Option Int)
  | ShellErr.procTerminated _ st _ => some st
  | _ => none

/-- `ShellSession.remove_command_echo(cont, cmd)` (client.py:946-950): if
`cont` is non-empty and its first line equals `cmd`, drop the first
keepends-line; otherwise return `cont` unchanged. -/
def remove_command_echo (cont cmd : String) : String :=
  if cont ≠ "" ∧ (splitlinesChars false cont.data).head? = some cmd.data then
    String.mk (joinChars ((splitlinesChars true cont.data).drop 1))
  else cont

/-- `ShellSession.remove_last_nonempty_line(cont)` (client.py:952-954):
`"".join(cont.rstrip().splitlines(True)[:-1])`. -/
def remove_last_nonempty_line (cont : String) : String :=
  String.mk (joinChars ((splitlinesChars true (rstripChars cont.data)).dropLast))

/-- `ShellSession.cmd_output(cmd, …, safe=False)` (client.py:1024-1064) as a
function of the outcome of `read_up_to_prompt` (the drain, `sendline` and
prompt wait are I/O; their net effect is the `Except` input).  On success
the echoed command and the final prompt line are stripped; an expect error
is translated at the boundary, carrying the echo-stripped partial output.
The `safe=True` branch delegates to `cmd_output_safe` and is not modelled. -/
def cmd_output (cmd : String) (readResult : Except ExpectErr String) :
    Except ShellErr String :=
  match readResult with
  | Except.ok o =>
      Except.ok (remove_last_nonempty_line (remove_command_echo o cmd))
  | Except.error e =>
      let o := remove_command_echo (expectErrOutput e) cmd
      match e with
      | ExpectErr.timeout _ _ => Except.error (ShellErr.timeout cmd o)
      | ExpectErr.procTerminated _ st _ => Except.error (ShellErr.procTerminated cmd st o)
      | ExpectErr.other _ _ => Except.error (ShellErr.generic cmd o)

/-- `ShellSession.cmd_status_output(cmd, …)` (client.py:1111-1149) as a
function of the `read_up_to_prompt` outcomes of the main command (`r1`) and
of the status probe `status_test_command` (`r2`, named `stc` here).  A shell
error from the probe call becomes `ShellStatusError(cmd, o)`; otherwise the
first probe line whose stripped content is all digits yields the status. -/
def cmd_status_output (cmd stc : String)
    (r1 r2 : Except ExpectErr String) : Except ShellErr (Int × String) :=
  match cmd_output cmd r1 with
  | Except.error e => Except.error e
  | Except.ok o =>
      match cmd_output stc r2 with
      | Except.error _ => Except.error (ShellErr.statusError cmd o)
      | Except.ok s =>
          match (splitlinesChars false s.data).filter
              (fun l => pyIsdigitChars (stripChars l)) with
          | [] => Except.error (ShellErr.statusError cmd o)
          | l :: _ => Except.ok ((digitsVal (stripChars l) : Int), o)

/-- `ShellSession.cmd(cmd, …, ok_status, ignore_all_errors)`
(client.py:1178-1217) over the same inputs as `cmd_status_output`.  The
`ShellCmdError` raised for a status outside `ok_status` is itself a
`ShellError`, so the surrounding `try/except ShellError` swallows it too
when `ignore_all_errors` is set, making the method return `None`. -/
def cmd (cmdStr stc : String) (r1 r2 : Except ExpectErr String)
    (ok_status : Option (List Int)) (ignore_all_errors : Bool) :
    Except ShellErr (Option String) :=
  let ok := ok_status.getD [0]
  match cmd_status_output cmdStr stc r1 r2 with
  | Except.ok (s, o) =>
      if s ∈ ok then Except.ok (some o)
      else if ignore_all_errors then Except.ok none
      else Except.error (ShellErr.cmdError cmdStr s o)
  | Except.error e =>
      if ignore_all_errors then Except.ok none else Except.error e

/-- Outcome of the advisory-lock probe made by `is_file_locked`
(shared.py:21-33): opening the lock file may raise `OSError`; otherwise the
non-blocking `lockf` attempt either fails with `IOError` (someone holds the
lock) or succeeds. -/
inductive LockProbe where
  | openErr
  | held
  | free
  deriving DecidableEq

/-- `shared.is_file_locked(filename)`: `False` when the file cannot be
opened, `True` exactly when the non-blocking lock attempt fails. -/
def is_file_locked : LockProbe → Bool
  | LockProbe.openErr => false
  | LockProbe.held => true
  | LockProbe.free => false

/-- `Spawn.is_alive()` (client.py:305-309): the lock probe on
`lock-server-running`. -/
def is_alive (probe : LockProbe) : Bool :=
  is_file_locked probe

/-- `Spawn.get_status()` (client.py:273-286) as a function of the attempt to
read the status file (after `wait_for_lock` returns): `IOError` on open or
read gives `None`, and so does `int()` failing on the content. -/
def get_status (readResult : Except Unit String) : Option Int :=
  match readResult with
  | Except.error _ => none
  | Except.ok s => pyInt? s

/-- `Spawn.get_output()` (client.py:288-296) as a function of the attempt to
read the output file: the content on success, `None` (not the empty string)
on `IOError`. -/
def get_output (readResult : Except Unit String) : Option String :=
  match readResult with
  | Except.error _ => none
  | Except.ok s => some s

/-- Right-justify a string in a field of width 10 by left-padding with
spaces, as Python's `"%10d"` conversion does to the rendered decimal. -/
def pad10 (s : String) : String :=
  String.mk (List.replicate (10 - s.length) ' ') ++ s

/-- The frame `Spawn.send_ctrl` writes to the control pipe
(client.py:375-387): `"%10d%s" % (len(control_str), control_str)`. -/
def send_ctrl (control_str : String) : String :=
  pad10 (toString control_str.length) ++ control_str

/-- Modelled from the spec: the control-pipe frame as §6 of the spec words
it, "10-byte zero-padded decimal length, then that many bytes of payload"
(the Helper that reads the frame is not under src/).  Kept only to compare
against the frame the source actually writes. -/
def send_ctrl_spec_frame (control_str : String) : String :=
  String.mk (List.replicate (10 - (toString control_str.length).length) '0') ++
    toString control_str.length ++ control_str

/-- Concatenation of a list of strings (specification device, used to state
that the zero-timeout read loop consumed every pending chunk). -/
def strConcat : List String → String
  | [] => ""
  | s :: ss => s ++ strConcat ss

/-! ### Helper lemmas -/

theorem str_append_data (a b : String) : (a ++ b).data = a.data ++ b.data := rfl

theorem str_mk_data (s : String) : String.mk s.data = s := rfl

theorem str_append_empty (s : String) : s ++ "" = s := by
  cases s with
  | mk d => show String.mk (d ++ []) = String.mk d; rw [List.append_nil]

theorem str_empty_append (s : String) : "" ++ s = s := by
  cases s with
  | mk d => rfl

theorem str_append_assoc (a b c : String) : a ++ b ++ c = a ++ (b ++ c) := by
  cases a with
  | mk da =>
      cases b with
      | mk db =>
          cases c with
          | mk dc => show String.mk _ = String.mk _; rw [List.append_assoc]

/-- Joining the keepends pieces reconstructs the input. -/
theorem join_splitlines (cs : List Char) :
    joinChars (splitlinesChars true cs) = cs := by
  induction cs using splitlinesChars.induct true <;>
    simp_all [splitlinesChars, joinChars]

/-- Joining all keepends pieces but the first yields the input minus its
first line. -/
theorem join_tail_splitlines (cs : List Char) :
    joinChars ((splitlinesChars true cs).tail) = dropFirstLineChars cs := by
  induction cs using splitlinesChars.induct true <;>
    simp_all [splitlinesChars, joinChars, dropFirstLineChars, join_splitlines]

/-- Dropping the first piece commutes with splitting. -/
theorem splitlines_tail (keep : Bool) (cs : List Char) :
    (splitlinesChars keep cs).tail = splitlinesChars keep (dropFirstLineChars cs) := by
  induction cs using splitlinesChars.induct keep <;>
    simp_all [splitlinesChars, dropFirstLineChars]

theorem splitlines_join_drop_one (cs : List Char) :
    splitlinesChars false (joinChars ((splitlinesChars true cs).drop 1)) =
      (splitlinesChars false cs).drop 1 := by
  rw [List.drop_one, List.drop_one, join_tail_splitlines, splitlines_tail]

theorem joinChars_dropLast_getLastD (ls : List (List Char)) :
    joinChars ls.dropLast ++ ls.getLastD [] = joinChars ls := by
  induction ls with
  | nil => rfl
  | cons l ls ih =>
      cases ls with
      | nil => simp [joinChars]
      | cons m ms =>
          simp only [List.dropLast_cons₂, joinChars, List.getLastD_cons,
            List.append_assoc] at *
          rw [ih]

theorem filter_head?_eq_find? {α : Type} (p : α → Bool) (l : List α) :
    (l.filter p).head? = l.find? p := by
  induction l with
  | nil => rfl
  | cons a l ih =>
      by_cases h : p a
      · simp [List.filter_cons, h, List.find?_cons_of_pos]
      · simp [List.filter_cons, h, List.find?_cons_of_neg, ih]

/-- One step of the multiline matcher loop, folded into `patternHits`. -/
theorem multiline_go_cons (search : String → String → Bool) (lines : List String)
    (i : Int) (p : Option String) (ps : List (Option String)) :
    match_patterns_multiline_go search lines i (p :: ps) =
      if patternHits search lines p then some i
      else match_patterns_multiline_go search lines (i + 1) ps := by
  cases p with
  | none => simp [match_patterns_multiline_go, optFalsy, patternHits]
  | some s =>
      by_cases h : s.isEmpty <;>
        simp [match_patterns_multiline_go, optFalsy, patternHits, h]

/-- The multiline matcher loop returns `base + j` for the first position `j`
whose pattern is non-falsy and matches some line, and nothing otherwise. -/
theorem multiline_go_eq_some_iff (search : String → String → Bool)
    (lines : List String) :
    ∀ (ps : List (Option String)) (base i : Int),
      match_patterns_multiline_go search lines base ps = some i ↔
        ∃ j : Nat, j < ps.length ∧ i = base + j ∧
          patternHits search lines (ps.getD j none) = true ∧
          ∀ k : Nat, k < j → patternHits search lines (ps.getD k none) = false := by
  intro ps
  induction ps with
  | nil => intro base i; simp [match_patterns_multiline_go]
  | cons p ps ih =>
      intro base i
      rw [multiline_go_cons]
      by_cases hp : patternHits search lines p
      · rw [if_pos hp]
        constructor
        · intro h
          injection h with h
          exact ⟨0, by simp, by omega, by simpa using hp, by omega⟩
        · rintro ⟨j, hj, hi, hhit, hall⟩
          cases j with
          | zero => rw [hi]; norm_num
          | succ j => exact absurd hp (by simpa using hall 0 (Nat.succ_pos j))
      · rw [if_neg hp]
        rw [ih (base + 1) i]
        constructor
        · rintro ⟨j, hj, hi, hhit, hall⟩
          refine ⟨j + 1, by simpa using Nat.succ_lt_succ hj, by push_cast; omega,
            by simpa using hhit, ?_⟩
          intro k hk
          cases k with
          | zero => simpa using Bool.eq_false_iff.mpr hp
          | succ k => simpa using hall k (Nat.lt_of_succ_lt_succ hk)
        · rintro ⟨j, hj, hi, hhit, hall⟩
          cases j with
          | zero => exact absurd (by simpa using hhit) hp
          | succ j =>
              refine ⟨j, by simpa using Nat.lt_of_succ_lt_succ hj, by push_cast at hi ⊢; omega,
                by simpa using hhit, ?_⟩
              intro k hk
              simpa using hall (k + 1) (Nat.succ_lt_succ hk)

/-- One step of the single-string matcher loop; a one-element line list
turns `patternHits` into the plain `re.search` test. -/
theorem match_go_cons (search : String → String → Bool) (cont : String)
    (i : Nat) (p : Option String) (ps : List (Option String)) :
    match_patterns_go search cont i (p :: ps) =
      if patternHits search [cont] p then some i
      else match_patterns_go search cont (i + 1) ps := by
  cases p with
  | none => simp [match_patterns_go, optFalsy, patternHits]
  | some s =>
      by_cases h : s.isEmpty <;>
        simp [match_patterns_go, optFalsy, patternHits, h]

/-- Any index returned by the single-string matcher loop points at a
non-falsy, matching pattern of the remaining list. -/
theorem match_go_eq_some (search : String → String → Bool) (cont : String) :
    ∀ (ps : List (Option String)) (base i : Nat),
      match_patterns_go search cont base ps = some i →
        ∃ j : Nat, j < ps.length ∧ i = base + j ∧
          patternHits search [cont] (ps.getD j none) = true := by
  intro ps
  induction ps with
  | nil => intro base i h; simp [match_patterns_go] at h
  | cons p ps ih =>
      intro base i h
      rw [match_go_cons] at h
      by_cases hp : patternHits search [cont] p
      · rw [if_pos hp] at h
        injection h with h
        exact ⟨0, by simp, by omega, by simpa using hp⟩
      · rw [if_neg hp] at h
        obtain ⟨j, hj, hi, hhit⟩ := ih (base + 1) i h
        exact ⟨j + 1, by simpa using Nat.succ_lt_succ hj, by omega, by simpa using hhit⟩

/-- A pattern entry that hits is a non-`None`, non-empty pattern. -/
theorem patternHits_true_elim (search : String → String → Bool)
    (lines : List String) (o : Option String)
    (h : patternHits search lines o = true) : ∃ p, o = some p ∧ p ≠ "" := by
  cases o with
  | none => simp [patternHits] at h
  | some s =>
      refine ⟨s, rfl, ?_⟩
      simp only [patternHits, Bool.and_eq_true, Bool.not_eq_true'] at h
      intro hs
      rw [hs] at h
      exact absurd h.1 (by decide)

/-- A negative index produced as `j - n` with `j < n` designates position
`j` under Python indexing. -/
theorem pyIndex_neg (n j : Nat) (h : j < n) :
    pyIndex n ((j : Int) - (n : Int)) = some j := by
  unfold pyIndex
  rw [if_neg (by omega), if_pos (by omega)]
  congr 1
  omega

/-! ### Claim theorems -/

/-- Claim C1, counterexample.  With lines `["a b"]` and patterns
`["a", "b"]` both patterns match some line, yet
`match_patterns_multiline` returns `-2`, the Python index designating the
earlier pattern `"a"` (position 0), not the later pattern `"b"` (position 1,
index `-1`) that last-to-first priority would require. -/
theorem C1_counterexample :
    match_patterns_multiline substrSearch ["a b"] [some "a", some "b"] = some (-2) ∧
    substrSearch "a" "a b" = true ∧
    substrSearch "b" "a b" = true ∧
    pyIndex 2 (-2) = some 0 ∧
    pyIndex 2 (-1) = some 1 ∧
    match_patterns_multiline substrSearch ["a b"] [some "a", some "b"] ≠ some (-1) := by
  decide

/-- Claim C1 (amended): `match_patterns_multiline` walks the pattern list in
position order 0 first (its loop `for i in range(-len(patterns), 0)` reads
`patterns[-len]`, i.e. `patterns[0]`, first), skipping empty/`None`
entries, and returns the negative running index `j - len(patterns)` of the
first position `j` whose pattern matches any of the lines; so when two
patterns each match some line the returned index designates the earlier
pattern in the list. -/
theorem C1_multiline_first_to_last (search : String → String → Bool)
    (lines : List String) (patterns : List (Option String)) (i : Int) :
    match_patterns_multiline search lines patterns = some i ↔
      ∃ j : Nat, j < patterns.length ∧ i = (j : Int) - (patterns.length : Int) ∧
        patternHits search lines (patterns.getD j none) = true ∧
        ∀ k : Nat, k < j → patternHits search lines (patterns.getD k none) = false := by
  unfold match_patterns_multiline
  rw [multiline_go_eq_some_iff]
  constructor <;> rintro ⟨j, h1, h2, h3, h4⟩ <;> exact ⟨j, h1, by omega, h3, h4⟩

/-- Claim C1, witness: the amended characterisation applied at the
counterexample input. -/
theorem C1_witness :
    ∃ j : Nat, j < (([some "a", some "b"] : List (Option String))).length ∧
      (-2 : Int) = (j : Int) - ((([some "a", some "b"] : List (Option String))).length : Int) ∧
      patternHits substrSearch ["a b"] (([some "a", some "b"] : List (Option String)).getD j none) = true ∧
      ∀ k : Nat, k < j →
        patternHits substrSearch ["a b"] (([some "a", some "b"] : List (Option String)).getD k none) = false :=
  (C1_multiline_first_to_last substrSearch ["a b"] [some "a", some "b"] (-2)).mp (by decide)

/-- Claim C5: both matchers return either "no match" or an index that
designates (directly for `match_patterns`, through Python negative indexing
for `match_patterns_multiline`) a pattern entry of the list that is neither
`None` nor the empty string; falsy entries are skipped but keep their
index. -/
theorem C5_matchers_return_valid_index (search : String → String → Bool)
    (cont : String) (lines : List String) (patterns : List (Option String)) :
    (∀ i : Nat, match_patterns search cont patterns = some i →
        i < patterns.length ∧ ∃ p, patterns.getD i none = some p ∧ p ≠ "") ∧
    (∀ i : Int, match_patterns_multiline search lines patterns = some i →
        ∃ j : Nat, pyIndex patterns.length i = some j ∧ j < patterns.length ∧
          ∃ p, patterns.getD j none = some p ∧ p ≠ "") := by
  constructor
  · intro i h
    obtain ⟨j, hj, hi, hhit⟩ := match_go_eq_some search cont patterns 0 i h
    obtain ⟨p, hp, hpne⟩ := patternHits_true_elim search [cont] _ hhit
    exact ⟨by omega, p, by rw [hi]; simpa using hp, hpne⟩
  · intro i h
    obtain ⟨j, hj, hi, hhit, -⟩ :=
      (multiline_go_eq_some_iff search lines patterns
        (-(patterns.length : Int)) i).mp h
    obtain ⟨p, hp, hpne⟩ := patternHits_true_elim search lines _ hhit
    refine ⟨j, ?_, hj, p, hp, hpne⟩
    rw [show i = (j : Int) - (patterns.length : Int) by omega]
    exact pyIndex_neg patterns.length j hj

/-- Claim C5, witness: `match_patterns` on patterns `[None, "", "b"]` and
input `"ab"` returns index 2, which designates the non-falsy pattern
`"b"`. -/
theorem C5_witness :
    2 < ([none, some "", some "b"] : List (Option String)).length ∧
    ∃ p, ([none, some "", some "b"] : List (Option String)).getD 2 none = some p ∧ p ≠ "" :=
  (C5_matchers_return_valid_index substrSearch "ab" []
    [none, some "", some "b"]).1 2 (by decide)

/-- Claim C2, counterexample.  For `cmd = "c"` and raw output
`"c\nc\nprompt"` (the command echo, then a line of output that happens to
equal the command, then the prompt), `cmd_output` returns `"c\n"`, whose
first line equals `cmd` — the echo strip removes only the raw first line,
so the claimed "never has a first line equal to cmd" fails. -/
theorem C2_counterexample :
    cmd_output "c" (Except.ok "c\nc\nprompt") = Except.ok "c\n" ∧
    (splitlinesChars false (String.data "c\n")).head? = some (String.data "c") :=
  ⟨rfl, rfl⟩

/-- Claim C2 (amended): `cmd_output(cmd)` returns
`remove_last_nonempty_line(remove_command_echo(raw, cmd))`; the echo strip
drops exactly the first line of the raw output when (and only when) that
line equals `cmd`, and the prompt strip removes exactly the final line of
the rstripped remainder — but a duplicated line equal to `cmd` (or to the
prompt text) later in the output survives, so the result's first line can
still equal `cmd`. -/
theorem C2_cmd_output_strips_one_line_each_end (cmd o : String) :
    cmd_output cmd (Except.ok o) =
      Except.ok (remove_last_nonempty_line (remove_command_echo o cmd)) ∧
    splitlinesChars false (remove_command_echo o cmd).data =
      (if (splitlinesChars false o.data).head? = some cmd.data
       then (splitlinesChars false o.data).drop 1
       else splitlinesChars false o.data) ∧
    (remove_last_nonempty_line (remove_command_echo o cmd)).data ++
        (splitlinesChars true (rstripChars (remove_command_echo o cmd).data)).getLastD [] =
      rstripChars (remove_command_echo o cmd).data := by
  refine ⟨rfl, ?_, ?_⟩
  · unfold remove_command_echo
    by_cases hc : o ≠ "" ∧ (splitlinesChars false o.data).head? = some cmd.data
    · rw [if_pos hc, if_pos hc.2]
      exact splitlines_join_drop_one o.data
    · rw [if_neg hc]
      rcases not_and_or.mp hc with ho | hh
      · have : o = "" := not_not.mp ho
        subst this
        rw [if_neg (by simp [splitlinesChars])]
      · rw [if_neg hh]
  · unfold remove_last_nonempty_line
    show joinChars ((splitlinesChars true (rstripChars (remove_command_echo o cmd).data)).dropLast) ++
        (splitlinesChars true (rstripChars (remove_command_echo o cmd).data)).getLastD [] =
      rstripChars (remove_command_echo o cmd).data
    rw [joinChars_dropLast_getLastD, join_splitlines]

/-- Claim C3: `cmd_status_output(cmd)` returns `(s, o)` where `o` is exactly
what `cmd_output(cmd)` returned and `s` is the integer on the first probe
line whose stripped content is all decimal digits; when the probe output
has no such line, or the probe call itself fails with a shell error, it
raises `ShellStatusError` carrying `cmd` and `o`. -/
theorem C3_cmd_status_output (cmdStr stc : String) (r1 r2 : Except ExpectErr String) :
    (∀ (st : Int) (o : String),
        cmd_status_output cmdStr stc r1 r2 = Except.ok (st, o) →
          cmd_output cmdStr r1 = Except.ok o ∧
          ∃ p l, cmd_output stc r2 = Except.ok p ∧
            (splitlinesChars false p.data).find?
                (fun ln => pyIsdigitChars (stripChars ln)) = some l ∧
            st = (digitsVal (stripChars l) : Int)) ∧
    (∀ o p, cmd_output cmdStr r1 = Except.ok o → cmd_output stc r2 = Except.ok p →
        (splitlinesChars false p.data).find?
            (fun ln => pyIsdigitChars (stripChars ln)) = none →
        cmd_status_output cmdStr stc r1 r2 =
          Except.error (ShellErr.statusError cmdStr o)) ∧
    (∀ o e, cmd_output cmdStr r1 = Except.ok o → cmd_output stc r2 = Except.error e →
        cmd_status_output cmdStr stc r1 r2 =
          Except.error (ShellErr.statusError cmdStr o)) := by
  refine ⟨?_, ?_, ?_⟩
  · intro st o h
    unfold cmd_status_output at h
    cases h1 : cmd_output cmdStr r1 with
    | error e => rw [h1] at h; cases h
    | ok o1 =>
        rw [h1] at h
        dsimp only at h
        cases h2 : cmd_output stc r2 with
        | error e => rw [h2] at h; cases h
        | ok p =>
            rw [h2] at h
            dsimp only at h
            cases h3 : (splitlinesChars false p.data).filter
                (fun ln => pyIsdigitChars (stripChars ln)) with
            | nil => rw [h3] at h; cases h
            | cons l rest =>
                rw [h3] at h
                dsimp only at h
                injection h with h
                have hl : (splitlinesChars false p.data).find?
                    (fun ln => pyIsdigitChars (stripChars ln)) = some l := by
                  rw [← filter_head?_eq_find?, h3]; rfl
                have ho : o1 = o := congrArg Prod.snd h
                have hst : st = (digitsVal (stripChars l) : Int) :=
                  (congrArg Prod.fst h).symm
                exact ⟨by rw [ho], p, l, rfl, hl, hst⟩
  · intro o p h1 h2 hnone
    have h3 : (splitlinesChars false p.data).filter
        (fun ln => pyIsdigitChars (stripChars ln)) = [] := by
      rw [← List.head?_eq_none_iff, filter_head?_eq_find?]
      exact hnone
    unfold cmd_status_output
    rw [h1]
    dsimp only
    rw [h2]
    dsimp only
    rw [h3]
  · intro o e h1 h2
    unfold cmd_status_output
    rw [h1]
    dsimp only
    rw [h2]

/-- Claim C3, witness: the theorem applied at concrete prompt-read outcomes
(command output `"x\nP"`, probe output `"0\nP"`, and a digit-free probe
output for the error branch). -/
theorem C3_witness :
    (cmd_output "c" (Except.ok "x\nP") = Except.ok "x\n" ∧
     ∃ p l, cmd_output "echo $?" (Except.ok "0\nP") = Except.ok p ∧
       (splitlinesChars false p.data).find?
           (fun ln => pyIsdigitChars (stripChars ln)) = some l ∧
       (0 : Int) = (digitsVal (stripChars l) : Int)) ∧
    cmd_status_output "c" "echo $?" (Except.ok "x\nP") (Except.ok "no digits\nP") =
      Except.error (ShellErr.statusError "c" "x\n") :=
  ⟨(C3_cmd_status_output "c" "echo $?" (Except.ok "x\nP") (Except.ok "0\nP")).1
      0 "x\n" rfl,
   (C3_cmd_status_output "c" "echo $?" (Except.ok "x\nP")
      (Except.ok "no digits\nP")).2.1 "x\n" "no digits\n" rfl rfl rfl⟩

/-- Claim C4: every expect-layer error escaping `read_up_to_prompt` inside
`cmd_output` is translated at the shell boundary into a shell error that
carries the offending command and the echo-stripped partial output, with
timeout ↦ `ShellTimeoutError`, process-terminated ↦
`ShellProcessTerminatedError` (same status), and anything else ↦ bare
`ShellError`. -/
theorem C4_error_translation (cmdStr : String) (e : ExpectErr) :
    ∃ se : ShellErr, cmd_output cmdStr (Except.error e) = Except.error se ∧
      shellErrCmd se = cmdStr ∧
      shellErrOutput se = remove_command_echo (expectErrOutput e) cmdStr ∧
      shellErrIsTimeout se = expectErrIsTimeout e ∧
      shellErrIsProcTerm se = expectErrIsProcTerm e ∧
      shellErrStatus se = expectErrStatus e ∧
      shellErrIsGeneric se = (!expectErrIsTimeout e && !expectErrIsProcTerm e) := by
  cases e <;> exact ⟨_, rfl, rfl, rfl, rfl, rfl, rfl, rfl⟩

/-- A match returned by the zero-timeout read loop really is a match of the
accumulated output, and the accumulator is the start value extended by a
prefix of the pending chunks. -/
theorem read_zero_go_matched (fmatch : String → Option Int)
    (patterns : List (Option String)) :
    ∀ (pending : List String) (o0 : String) (i : Int) (o : String),
      read_until_zero_timeout_go fmatch patterns o0 pending =
          ReadOutcome.matched i o →
        fmatch o = some i := by
  intro pending
  induction pending with
  | nil => intro o0 i o h; cases h
  | cons d rest ih =>
      intro o0 i o h
      unfold read_until_zero_timeout_go at h
      cases hm : fmatch (o0 ++ d) with
      | some j =>
          rw [hm] at h
          dsimp only at h
          injection h with hi ho
          rw [← ho, hm, hi]
      | none =>
          rw [hm] at h
          dsimp only at h
          exact ih (o0 ++ d) i o h

/-- A timeout raised by the zero-timeout read loop carries the start value
extended by every pending chunk: all available data was read first. -/
theorem read_zero_go_timeout (fmatch : String → Option Int)
    (patterns : List (Option String)) :
    ∀ (pending : List String) (o0 : String) (o : String),
      read_until_zero_timeout_go fmatch patterns o0 pending =
          ReadOutcome.timeoutErr patterns o →
        o = o0 ++ strConcat pending := by
  intro pending
  induction pending with
  | nil =>
      intro o0 o h
      unfold read_until_zero_timeout_go at h
      injection h with hp ho
      rw [← ho, strConcat, str_append_empty]
  | cons d rest ih =>
      intro o0 o h
      unfold read_until_zero_timeout_go at h
      cases hm : fmatch (o0 ++ d) with
      | some j => rw [hm] at h; cases h
      | none =>
          rw [hm] at h
          dsimp only at h
          rw [ih (o0 ++ d) o h, strConcat, str_append_assoc]

/-- Claim C6, counterexample.  With timeout 0 but the chunk `"x"` already
pending in the expect FIFO, `read_until_output_matches` on the single
pattern `"x"` returns a successful match after reading the data, instead of
raising `ExpectTimeoutError` without reading: `select` with a zero timeout
still reports already-available data as ready. -/
theorem C6_counterexample :
    read_until_zero_timeout
        (fun o => (match_patterns substrSearch o [some "x"]).map Int.ofNat)
        [some "x"] ["x"] = ReadOutcome.matched 0 "x" := rfl

/-- Claim C6 (amended): with timeout 0 the read loop polls; it raises
`ExpectTimeoutError` without reading only when no data is pending, while
pending data is read chunk by chunk and can produce a match; if nothing
matches, the `ExpectTimeoutError` carries everything that was read. -/
theorem C6_zero_timeout (fmatch : String → Option Int)
    (patterns : List (Option String)) (pending : List String) :
    (pending = [] →
      read_until_zero_timeout fmatch patterns pending =
        ReadOutcome.timeoutErr patterns "") ∧
    (∀ (i : Int) (o : String),
      read_until_zero_timeout fmatch patterns pending = ReadOutcome.matched i o →
        fmatch o = some i) ∧
    (∀ o : String,
      read_until_zero_timeout fmatch patterns pending =
          ReadOutcome.timeoutErr patterns o →
        o = strConcat pending) := by
  refine ⟨?_, ?_, ?_⟩
  · intro h
    rw [h]
    rfl
  · intro i o h
    exact read_zero_go_matched fmatch patterns pending "" i o h
  · intro o h
    rw [read_zero_go_timeout fmatch patterns pending "" o h, str_empty_append]

/-- Claim C6, witness: the amended theorem applied with an empty FIFO (the
timeout branch) and at the counterexample input (the match branch). -/
theorem C6_witness :
    read_until_zero_timeout (fun _ => none) [some "p"] [] =
        ReadOutcome.timeoutErr [some "p"] "" ∧
    (fun o => (match_patterns substrSearch o [some "x"]).map Int.ofNat) "x" =
        some 0 :=
  ⟨(C6_zero_timeout (fun _ => none) [some "p"] []).1 rfl,
   (C6_zero_timeout (fun o => (match_patterns substrSearch o [some "x"]).map Int.ofNat)
      [some "x"] ["x"]).2.1 0 "x" rfl⟩

/-- Every callback the tail loop makes before EOF is an `output_func` call,
never a `termination_func` call. -/
theorem tailStep_no_terminate (pre bfr : String) (e : TailEvent) :
    ∀ c ∈ (tailStep pre bfr e).2, tailCallIsTerminate c = false := by
  cases e with
  | data s =>
      intro c hc
      simp only [tailStep, List.mem_map] at hc
      obtain ⟨l, -, rfl⟩ := hc
      rfl
  | quiet =>
      intro c hc
      by_cases h : bfr = ""
      · simp [tailStep, h] at hc
      · simp only [tailStep, if_neg h, List.mem_singleton] at hc
        rw [hc]
        rfl

theorem tailLoop_no_terminate (pre : String) :
    ∀ (events : List TailEvent) (bfr : String),
      ∀ c ∈ (tailLoop pre bfr events).2, tailCallIsTerminate c = false := by
  intro events
  induction events with
  | nil => intro bfr c hc; simp [tailLoop] at hc
  | cons e es ih =>
      intro bfr c hc
      unfold tailLoop at hc
      rw [List.mem_append] at hc
      rcases hc with hc | hc
      · exact tailStep_no_terminate pre bfr e c hc
      · exact ih (tailStep pre bfr e).1 c hc

/-- Claim C7, counterexample.  A run that reaches EOF with buffered text
`"ab"` but whose `get_status()` yields `None` (status file unreadable, e.g.
the Helper was killed) flushes the buffer and then returns: no
`"(Process terminated with status …)"` line and no `termination_func` call
are made, so "invokes termination_func exactly once" fails for this
EOF-reaching run. -/
theorem C7_counterexample :
    tail_run "" [TailEvent.data "ab"] none = [TailCall.line "ab"] ∧
    (tail_run "" [TailEvent.data "ab"] none).filter tailCallIsTerminate = [] :=
  ⟨rfl, rfl⟩

/-- Claim C7 (amended): in every EOF-reaching run of the Tail worker in
which `get_status()` yields an exit status `st`, the worker first flushes
any buffered partial line, then emits the `"(Process terminated with status
st)"` line through `output_func`, and finally invokes `termination_func`
exactly once, with `st`, as the very last action; when the status is
unavailable the worker exits after the flush without either call. -/
theorem C7_termination_protocol (pre : String) (events : List TailEvent) (st : Int) :
    (tail_run pre events (some st)).filter tailCallIsTerminate =
      [TailCall.terminate st] ∧
    (tail_run pre events (some st)).getLast? = some (TailCall.terminate st) ∧
    (tail_run pre events (some st)).dropLast.getLast? =
      some (tailPrintLine pre (procTermMsg st)) ∧
    ∃ calls : List TailCall,
      tail_run pre events (some st) =
        calls ++ [tailPrintLine pre (procTermMsg st), TailCall.terminate st] ∧
      ∀ c ∈ calls, tailCallIsTerminate c = false := by
  have hrun : tail_run pre events (some st) =
      ((tailLoop pre "" events).2 ++
        (if (tailLoop pre "" events).1 = "" then []
         else [tailPrintLine pre (tailLoop pre "" events).1])) ++
      [tailPrintLine pre (procTermMsg st), TailCall.terminate st] := by
    unfold tail_run
    dsimp only
  have hflush : ∀ c ∈ (if (tailLoop pre "" events).1 = "" then ([] : List TailCall)
      else [tailPrintLine pre (tailLoop pre "" events).1]),
      tailCallIsTerminate c = false := by
    intro c hc
    by_cases h : (tailLoop pre "" events).1 = ""
    · rw [if_pos h] at hc
      cases hc
    · rw [if_neg h] at hc
      rw [List.mem_singleton] at hc
      rw [hc]
      rfl
  have hcalls : ∀ c ∈ (tailLoop pre "" events).2 ++
      (if (tailLoop pre "" events).1 = "" then ([] : List TailCall)
       else [tailPrintLine pre (tailLoop pre "" events).1]),
      tailCallIsTerminate c = false := by
    intro c hc
    rcases List.mem_append.mp hc with hc | hc
    · exact tailLoop_no_terminate pre events "" c hc
    · exact hflush c hc
  refine ⟨?_, ?_, ?_, ?_⟩
  · rw [hrun, List.filter_append]
    rw [List.filter_eq_nil_iff.mpr (by intro c hc; rw [hcalls c hc]; exact Bool.false_ne_true)]
    rfl
  · rw [hrun, show [tailPrintLine pre (procTermMsg st), TailCall.terminate st] =
        [tailPrintLine pre (procTermMsg st)] ++ [TailCall.terminate st] from rfl,
      ← List.append_assoc, List.getLast?_concat]
  · rw [hrun, show [tailPrintLine pre (procTermMsg st), TailCall.terminate st] =
        [tailPrintLine pre (procTermMsg st)] ++ [TailCall.terminate st] from rfl,
      ← List.append_assoc, List.dropLast_concat, List.getLast?_concat]
  · exact ⟨_, hrun, hcalls⟩

/-- Claim C7, witness: the protocol theorem applied to the empty event
sequence with status 0. -/
theorem C7_witness :
    (tail_run "" [] (some 0)).filter tailCallIsTerminate = [TailCall.terminate 0] :=
  (C7_termination_protocol "" [] 0).1

/-- Claim C8, counterexample.  For the 3-byte payload `"raw"` the source
writes `"%10d" % 3`, i.e. nine spaces and a `'3'`, followed by the payload —
not the zero-padded field `"0000000003"` the claim describes. -/
theorem C8_counterexample :
    send_ctrl "raw" = "         3raw" ∧
    send_ctrl_spec_frame "raw" = "0000000003raw" ∧
    send_ctrl "raw" ≠ send_ctrl_spec_frame "raw" := by
  refine ⟨rfl, rfl, ?_⟩
  intro h
  cases h

/-- Claim C8 (amended): `send_ctrl` writes a frame consisting of the payload
length as a right-justified, SPACE-padded decimal field of width 10 (Python
`"%10d"`; the field widens only if the decimal needs more than 10 digits),
followed by exactly the payload. -/
theorem C8_send_ctrl_frame (control_str : String) :
    send_ctrl control_str =
      String.mk (List.replicate (10 - (toString control_str.length).length) ' ') ++
        (toString control_str.length ++ control_str) ∧
    (send_ctrl control_str).length =
      max 10 (toString control_str.length).length + control_str.length := by
  constructor
  · unfold send_ctrl pad10
    rw [str_append_assoc]
  · unfold send_ctrl pad10
    rw [String.length_append, String.length_append]
    have h1 : (String.mk (List.replicate (10 - (toString control_str.length).length) ' ')).length =
        10 - (toString control_str.length).length := by
      show (List.replicate (10 - (toString control_str.length).length) ' ').length = _
      rw [List.length_replicate]
    rw [h1]
    omega

/-- Claim C9, counterexample.  When the output file cannot be read
(`IOError`), `get_output` returns Python `None`, which is not the empty
string the claim promises. -/
theorem C9_counterexample :
    get_output (Except.error ()) = none ∧
    get_output (Except.error ()) ≠ some "" := by
  refine ⟨rfl, ?_⟩
  intro h
  cases h

/-- Claim C9 (amended): I/O errors against the session directory are
swallowed with defaults rather than raised — `get_status` yields `None`
(on an unreadable file and on unparseable content alike), `is_alive`
reports not alive when the lock file cannot even be opened — but
`get_output` on a missing or unreadable output file yields `None`, not the
empty string. -/
theorem C9_io_error_defaults :
    get_status (Except.error ()) = none ∧
    get_status (Except.ok "garbage") = none ∧
    get_output (Except.error ()) = none ∧
    is_alive LockProbe.openErr = false ∧
    is_alive LockProbe.held = true := by
  exact ⟨rfl, rfl, rfl, rfl, rfl⟩

/-- Claim C10: with `ignore_all_errors=True`, `cmd` returns `None` whenever
any shell-layer error occurs — including the `ShellCmdError` it raises
itself for an exit status outside `ok_status` (a `ShellError` subclass, so
its own `except ShellError` clause swallows it) — and never raises; with
`ignore_all_errors=False` the error propagates. -/
theorem C10_cmd_ignore_all_errors (cmdStr stc : String)
    (r1 r2 : Except ExpectErr String) (ok_status : Option (List Int)) :
    (∀ e : ShellErr, cmd_status_output cmdStr stc r1 r2 = Except.error e →
        cmd cmdStr stc r1 r2 ok_status true = Except.ok none ∧
        cmd cmdStr stc r1 r2 ok_status false = Except.error e) ∧
    (∀ (st : Int) (o : String),
        cmd_status_output cmdStr stc r1 r2 = Except.ok (st, o) →
        st ∉ ok_status.getD [0] →
        cmd cmdStr stc r1 r2 ok_status true = Except.ok none ∧
        cmd cmdStr stc r1 r2 ok_status false =
          Except.error (ShellErr.cmdError cmdStr st o)) ∧
    (∀ (st : Int) (o : String) (ign : Bool),
        cmd_status_output cmdStr stc r1 r2 = Except.ok (st, o) →
        st ∈ ok_status.getD [0] →
        cmd cmdStr stc r1 r2 ok_status ign = Except.ok (some o)) ∧
    (∀ e : ShellErr, cmd cmdStr stc r1 r2 ok_status true ≠ Except.error e) := by
  refine ⟨?_, ?_, ?_, ?_⟩
  · intro e h
    constructor <;> (unfold cmd; rw [h]; simp)
  · intro st o h hnot
    constructor <;> (unfold cmd; rw [h]; dsimp only; rw [if_neg hnot]; simp)
  · intro st o ign h hin
    unfold cmd
    rw [h]
    dsimp only
    rw [if_pos hin]
  · intro e h
    unfold cmd at h
    cases hs : cmd_status_output cmdStr stc r1 r2 with
    | error e2 => rw [hs] at h; dsimp only at h; cases h
    | ok so =>
        rw [hs] at h
        dsimp only at h
        by_cases hin : so.1 ∈ ok_status.getD [0]
        · rw [if_pos hin] at h
          cases h
        · rw [if_neg hin] at h
          simp at h

/-- Claim C10, witness: the theorem applied where the probed status is 1
(outside the default `ok_status=[0]`): with `ignore_all_errors=True` the
call returns `None`, with `False` it raises `ShellCmdError`. -/
theorem C10_witness :
    cmd "c" "echo $?" (Except.ok "x\nP") (Except.ok "1\nP") none true =
        Except.ok none ∧
    cmd "c" "echo $?" (Except.ok "x\nP") (Except.ok "1\nP") none false =
        Except.error (ShellErr.cmdError "c" 1 "x\n") :=
  (C10_cmd_ignore_all_errors "c" "echo $?" (Except.ok "x\nP")
      (Except.ok "1\nP") none).2.1 1 "x\n" rfl (by decide)

end Aexpect
